import Mathlib

/-!
Verification of the AQI-predictor pipeline (collector, feature engineer,
trainer) against its natural-language specification.

The Python source is shallowly embedded: pandas/numpy float columns become
`List (Option ℚ)` (with `none` playing the role of `NaN`), and each
column-producing operation of the source becomes a Lean function on such
lists.  The only place where real numbers are unavoidable is the standard
deviation (a square root), embedded via `Real.sqrt` over an exactly-computed
rational variance.
-/

namespace AQIPredictor

/-! ## AQI calculator (src/data/collector.py) -/

/-- `KarachiAQICollector.calculate_aqi`, the per-element numeric branch
(applied when the input is not `NaN`).  Direct translation of the
breakpoint ladder in collector.py lines 104-117. -/
def calculate_aqi_val (value : ℚ) : ℚ :=
  if value ≤ 12.0 then value * (50 / 12.0)
  else if value ≤ 35.4 then 50 + (value - 12.1) * (50 / 23.3)
  else if value ≤ 55.4 then 100 + (value - 35.5) * (50 / 19.9)
  else if value ≤ 150.4 then 150 + (value - 55.5) * (50 / 94.9)
  else if value ≤ 250.4 then 200 + (value - 150.5) * (100 / 99.9)
  else 300 + (value - 250.5) * (200 / 249.9)

/-- One element of `calculate_aqi`: `NaN` (here `none`) propagates,
otherwise the breakpoint formula is applied. -/
def calculate_aqi_elem (pm25 : Option ℚ) : Option ℚ :=
  match pm25 with
  | none => none
  | some v => some (calculate_aqi_val v)

/-- `KarachiAQICollector.calculate_aqi` over a whole series: the source
loops over the input array writing one output per element. -/
def calculate_aqi (pm25 : List (Option ℚ)) : List (Option ℚ) :=
  pm25.map calculate_aqi_elem

/-- `KarachiAQICollector.get_aqi_category` (collector.py lines 121-136):
`NaN` maps to "Unknown", otherwise the chain of `<=` threshold tests. -/
def get_aqi_category (aqi : Option ℚ) : String :=
  match aqi with
  | none => "Unknown"
  | some v =>
    if v ≤ 50 then "Good"
    else if v ≤ 100 then "Moderate"
    else if v ≤ 150 then "Unhealthy for Sensitive"
    else if v ≤ 200 then "Unhealthy"
    else if v ≤ 300 then "Very Unhealthy"
    else "Hazardous"

/-! ## Claims C2, C3, C4: the AQI calculator -/

/-- C2, counterexample.  The claim says `calculate_aqi` is monotonically
non-decreasing over all non-missing concentrations.  It is not: the band
anchors (12.1, 35.5, ...) sit strictly above the band starts (12.0, 35.4,
...), so the function dips just after every band boundary.  Concretely
`0 ≤ 12 ≤ 12.05` but `calculate_aqi(12.05) < calculate_aqi(12) = 50`. -/
theorem calculate_aqi_not_monotone :
    (0:ℚ) ≤ 12 ∧ (12:ℚ) ≤ 12.05 ∧
      calculate_aqi_val 12.05 < calculate_aqi_val 12 := by
  norm_num [calculate_aqi_val]

set_option maxHeartbeats 1600000 in
set_option linter.unusedVariables false in
/-- C2, amended.  `calculate_aqi` is monotone non-decreasing up to a bounded
dip at band boundaries: for all `0 ≤ c1 ≤ c2`,
`calculate_aqi(c1) ≤ calculate_aqi(c2) + 50/199`, where `50/199 ≈ 0.2513`
is the largest boundary dip (it occurs at the 35.4 boundary, where the
next band is anchored at 35.5).  The hypothesis `0 ≤ c1` is part of the
claim (pm2.5 concentrations are nonnegative); the bound holds without it. -/
theorem calculate_aqi_monotone_up_to_band_dip (c1 c2 : ℚ)
    (h0 : 0 ≤ c1) (h12 : c1 ≤ c2) :
    calculate_aqi_val c1 ≤ calculate_aqi_val c2 + 50 / 199 := by
  clear h0
  unfold calculate_aqi_val
  split_ifs <;> linarith

/-- Witness for C2 amended, at the concrete pair `c1 = 1 ≤ c2 = 2`. -/
theorem calculate_aqi_monotone_up_to_band_dip_witness :
    calculate_aqi_val 1 ≤ calculate_aqi_val 2 + 50 / 199 :=
  calculate_aqi_monotone_up_to_band_dip 1 2 (by norm_num) (by norm_num)

/-- C3, counterexample.  The claim says `calculate_aqi(40) ≈ 112.6`.  The
code computes `100 + (40 - 35.5) * (50/19.9) = 22150/199 ≈ 111.31`, which
is more than 1 away from 112.6. -/
theorem calculate_aqi_at_40_not_112_6 :
    calculate_aqi_val 40 = 22150 / 199 ∧ |(22150:ℚ)/199 - 112.6| > 1 := by
  constructor
  · norm_num [calculate_aqi_val]
  · rw [abs_sub_comm, abs_of_pos] <;> norm_num

/-- C3, amended.  `calculate_aqi(10) = 125/3 = 41.666... (41.67 to two
decimals)` with category Good, and `calculate_aqi(40) = 22150/199 =
111.306... (111.31 to two decimals, not 112.6)` with category
Unhealthy for Sensitive. -/
theorem calculate_aqi_scenario_10_and_40 :
    calculate_aqi_elem (some 10) = some (125/3) ∧
      |(125:ℚ)/3 - 41.67| < 5/1000 ∧
      get_aqi_category (calculate_aqi_elem (some 10)) = "Good" ∧
      calculate_aqi_elem (some 40) = some (22150/199) ∧
      |(22150:ℚ)/199 - 111.31| < 5/1000 ∧
      get_aqi_category (calculate_aqi_elem (some 40)) =
        "Unhealthy for Sensitive" := by
  refine ⟨?_, ?_, ?_, ?_, ?_, ?_⟩
  · norm_num [calculate_aqi_elem, calculate_aqi_val]
  · rw [abs_sub_lt_iff]; norm_num
  · norm_num [calculate_aqi_elem, calculate_aqi_val, get_aqi_category]
  · norm_num [calculate_aqi_elem, calculate_aqi_val]
  · rw [abs_sub_lt_iff]; norm_num
  · norm_num [calculate_aqi_elem, calculate_aqi_val, get_aqi_category]

/-- C4, confirmed.  Missing pm2.5 maps to missing AQI, missing AQI maps to
category "Unknown" (both functions are total, so neither can raise), and
`get_aqi_category` uses closed upper thresholds:
≤50 Good, ≤100 Moderate, ≤150 Unhealthy for Sensitive, ≤200 Unhealthy,
≤300 Very Unhealthy, else Hazardous. -/
theorem missing_propagation_and_category_thresholds :
    calculate_aqi_elem none = none ∧
      get_aqi_category none = "Unknown" ∧
      ∀ v : ℚ,
        (v ≤ 50 → get_aqi_category (some v) = "Good") ∧
        (50 < v → v ≤ 100 → get_aqi_category (some v) = "Moderate") ∧
        (100 < v → v ≤ 150 →
          get_aqi_category (some v) = "Unhealthy for Sensitive") ∧
        (150 < v → v ≤ 200 → get_aqi_category (some v) = "Unhealthy") ∧
        (200 < v → v ≤ 300 → get_aqi_category (some v) = "Very Unhealthy") ∧
        (300 < v → get_aqi_category (some v) = "Hazardous") := by
  refine ⟨rfl, rfl, fun v => ⟨?_, ?_, ?_, ?_, ?_, ?_⟩⟩ <;>
    · intros
      simp only [get_aqi_category]
      split_ifs <;> first | rfl | linarith

/-- Witness for C4, instantiating one value in each category band. -/
theorem missing_propagation_and_category_thresholds_witness :
    get_aqi_category (some 40) = "Good" ∧
      get_aqi_category (some 60) = "Moderate" ∧
      get_aqi_category (some 120) = "Unhealthy for Sensitive" ∧
      get_aqi_category (some 160) = "Unhealthy" ∧
      get_aqi_category (some 250) = "Very Unhealthy" ∧
      get_aqi_category (some 400) = "Hazardous" :=
  ⟨(missing_propagation_and_category_thresholds.2.2 40).1 (by norm_num),
   (missing_propagation_and_category_thresholds.2.2 60).2.1 (by norm_num)
     (by norm_num),
   (missing_propagation_and_category_thresholds.2.2 120).2.2.1 (by norm_num)
     (by norm_num),
   (missing_propagation_and_category_thresholds.2.2 160).2.2.2.1 (by norm_num)
     (by norm_num),
   (missing_propagation_and_category_thresholds.2.2 250).2.2.2.2.1
     (by norm_num) (by norm_num),
   (missing_propagation_and_category_thresholds.2.2 400).2.2.2.2.2
     (by norm_num)⟩

/-! ## Feature engineering, hourly path (src/features/engineer.py,
`AQIFeatureEngineer.create_features`)

Columns are `List (Option ℚ)`; `none` is pandas `NaN`.  `shiftBack k` is
`Series.shift(k)`, `shiftFwd k` is `Series.shift(-k)`, `rollingMean w` is
`Series.rolling(w).mean()` (default `min_periods = w`: the window must hold
`w` non-missing values), and `meanOpt` is `Series.mean()` (skips `NaN`;
all-`NaN` gives `NaN`). -/

/-- `Series.mean()` of a list of plain values: `NaN` on an empty list. -/
def meanList (vals : List ℚ) : Option ℚ :=
  if vals.length = 0 then none else some (vals.sum / vals.length)

/-- `Series.mean()` over a possibly-missing column: missing entries are
skipped; an all-missing column has a missing mean. -/
def meanOpt (xs : List (Option ℚ)) : Option ℚ :=
  meanList (xs.filterMap id)

/-- `Series.shift(k)`: the first `k` entries become missing, the rest move
down by `k`; the result keeps the input's length. -/
def shiftBack (k : ℕ) (xs : List (Option ℚ)) : List (Option ℚ) :=
  List.replicate (min k xs.length) none ++ xs.take (xs.length - k)

/-- `Series.shift(-k)`: entries move up by `k`, the last `k` become
missing; the result keeps the input's length. -/
def shiftFwd (k : ℕ) (xs : List (Option ℚ)) : List (Option ℚ) :=
  xs.drop k ++ List.replicate (min k xs.length) none

/-- `Series.rolling(w).mean()` with the default `min_periods = w`: entry
`i` is the mean of the trailing window of `w` entries ending at `i`, and is
missing unless that window exists and is entirely non-missing. -/
def rollingMean (w : ℕ) (xs : List (Option ℚ)) : List (Option ℚ) :=
  (List.range xs.length).map (fun i =>
    if i + 1 < w then none
    else
      let window := (xs.drop (i + 1 - w)).take w
      if window.all (fun x => x.isSome) then meanOpt window else none)

/-- One input row of `create_features`: `date` stands for
`timestamp.dt.date` (an abstract day number); the purely calendrical
columns (hour, day_of_week, month, is_weekend) are row-local functions of
the timestamp and play no part in any claim. -/
structure HourlyRow where
  date : ℕ
  pm2_5 : Option ℚ
  aqi : Option ℚ
deriving DecidableEq, Repr

/-- `features.groupby('date')['aqi']` restricted to the group of date `d`:
the aqi entries of the rows of that date, in input order (pandas groupby
keeps the original order within each group). -/
def groupAqis (rows : List HourlyRow) (d : ℕ) : List (Option ℚ) :=
  (rows.filter (fun r => decide (r.date = d))).map (fun r => r.aqi)

/-- The derived columns of `AQIFeatureEngineer.create_features`. -/
structure HourlyFeatures where
  pm2_5_lag_1h : List (Option ℚ)
  pm2_5_lag_24h : List (Option ℚ)
  pm2_5_6h_avg : List (Option ℚ)
  pm2_5_24h_avg : List (Option ℚ)
  daily_avg_aqi : List (Option ℚ)
  next_day_avg_aqi : List (Option ℚ)

/-- `AQIFeatureEngineer.create_features` (engineer.py lines 19-35): lag-1
and lag-24 of pm2_5, 6- and 24-row rolling means of pm2_5, the per-date
broadcast mean of aqi (`groupby('date')['aqi'].transform('mean')`), and the
label `groupby('date')['aqi'].transform(lambda x: x.shift(-24).mean())`. -/
def create_features (rows : List HourlyRow) : HourlyFeatures :=
  let pm := rows.map (fun r => r.pm2_5)
  { pm2_5_lag_1h := shiftBack 1 pm
    pm2_5_lag_24h := shiftBack 24 pm
    pm2_5_6h_avg := rollingMean 6 pm
    pm2_5_24h_avg := rollingMean 24 pm
    daily_avg_aqi := rows.map (fun r => meanOpt (groupAqis rows r.date))
    next_day_avg_aqi :=
      rows.map (fun r => meanOpt (shiftFwd 24 (groupAqis rows r.date))) }

/-- Modelled from the spec: the reading the spec explicitly rules out for
the hourly label, "the mean AQI of the following calendar day" — each row
would be labelled with the mean aqi of the group of the next date.  Used
only to compare against what the code computes. -/
def nextDayCalendarMean (rows : List HourlyRow) : List (Option ℚ) :=
  rows.map (fun r => meanOpt (groupAqis rows (r.date + 1)))

/-! ### Helper lemmas -/

lemma filterMap_id_replicate_none (n : ℕ) :
    (List.replicate n (none : Option ℚ)).filterMap id = [] := by
  induction n with
  | zero => rfl
  | succ n ih => simp [List.replicate_succ, ih]

lemma meanOpt_shiftFwd (k : ℕ) (xs : List (Option ℚ)) :
    meanOpt (shiftFwd k xs) = meanOpt (xs.drop k) := by
  unfold meanOpt shiftFwd
  rw [List.filterMap_append, filterMap_id_replicate_none, List.append_nil]

lemma getD_map_range (n : ℕ) (f : ℕ → Option ℚ) (i : ℕ) (hi : i < n) :
    (((List.range n).map f).getD i none) = f i := by
  rw [List.getD_eq_getElem?_getD, List.getElem?_map, List.getElem?_range hi]
  rfl

lemma filterMap_id_length_all_some (xs : List (Option ℚ))
    (h : ∀ x ∈ xs, x.isSome) : (xs.filterMap id).length = xs.length := by
  induction xs with
  | nil => rfl
  | cons a t ih =>
    cases a with
    | none => exact absurd (h none (by simp)) (by simp)
    | some v =>
      simp only [List.filterMap_cons]
      simp only [id]
      rw [List.length_cons, List.length_cons, ih (fun x hx => h x (by simp [hx]))]

lemma rollingMean_getD_isSome (w : ℕ) (hw : 0 < w) (xs : List (Option ℚ))
    (hall : ∀ x ∈ xs, x.isSome) (i : ℕ) (hi : i < xs.length) :
    ((rollingMean w xs).getD i none).isSome = true ↔ w ≤ i + 1 := by
  unfold rollingMean
  rw [getD_map_range _ _ i hi]
  by_cases hc : i + 1 < w
  · rw [if_pos hc]
    simp only [Option.isSome_none, Bool.false_eq_true, false_iff]
    omega
  · rw [if_neg hc]
    have hwin : ((xs.drop (i + 1 - w)).take w).all (fun x => x.isSome) = true := by
      rw [List.all_eq_true]
      intro x hx
      exact hall x (List.drop_subset _ _ (List.take_subset _ _ hx))
    rw [if_pos hwin]
    have hne : (((xs.drop (i + 1 - w)).take w).filterMap id).length = w := by
      rw [filterMap_id_length_all_some]
      · rw [List.length_take, List.length_drop]
        omega
      · intro x hx
        exact hall x (List.drop_subset _ _ (List.take_subset _ _ hx))
    unfold meanOpt meanList
    rw [if_neg (by omega)]
    simp only [Option.isSome_some, true_iff]
    omega

lemma shiftBack_getD_isSome (k : ℕ) (xs : List (Option ℚ))
    (hall : ∀ x ∈ xs, x.isSome) (hk : k ≤ xs.length) (i : ℕ)
    (hi : i < xs.length) :
    ((shiftBack k xs).getD i none).isSome = true ↔ k ≤ i := by
  unfold shiftBack
  have hmin : min k xs.length = k := by omega
  rw [hmin]
  by_cases hik : i < k
  · rw [List.getD_eq_getElem?_getD, List.getElem?_append_left (by simp [hik]),
      List.getElem?_replicate_of_lt hik]
    simp only [Option.getD_some, Option.isSome_none, Bool.false_eq_true,
      false_iff]
    omega
  · rw [List.getD_eq_getElem?_getD, List.getElem?_append_right (by simp; omega)]
    rw [List.length_replicate, List.getElem?_take_of_lt (by omega)]
    have hik2 : i - k < xs.length := by omega
    rw [List.getElem?_eq_getElem hik2]
    simp only [Option.getD_some]
    constructor
    · intro _; omega
    · intro _
      exact hall _ (List.getElem_mem hik2)

/-! ### Claims C1, C5, C6, C10 -/

/-- A two-day input: 25 rows on date 0 (aqi 0 for the first 24, then one
row of aqi 10) and a single row of aqi 99 on date 1. -/
def c1TwoDayRows : List HourlyRow :=
  List.replicate 24 ⟨0, none, some 0⟩ ++ [⟨0, none, some 10⟩, ⟨1, none, some 99⟩]

/-- C1, confirmed.  The label `next_day_avg_aqi` of every row is the mean
of its own date-group's aqi series shifted back by 24 (equivalently, the
mean of the group's aqi entries from position 24 onward, skipping missing
values) — and this is not the mean AQI of the following calendar day: on
`c1TwoDayRows` the code labels the date-0 rows `10` (the group's only
entry 24 steps ahead) while the following day's mean is `99`. -/
theorem next_day_label_is_shifted_group_mean :
    (∀ rows : List HourlyRow,
        (create_features rows).next_day_avg_aqi =
          rows.map (fun r => meanOpt ((groupAqis rows r.date).drop 24))) ∧
      ((create_features c1TwoDayRows).next_day_avg_aqi).getD 0 none = some 10 ∧
      (nextDayCalendarMean c1TwoDayRows).getD 0 none = some 99 := by
  refine ⟨fun rows => by simp [create_features, meanOpt_shiftFwd], ?_, ?_⟩
  · norm_num [c1TwoDayRows, create_features, groupAqis, meanOpt, meanList,
      shiftFwd, List.replicate_succ, List.filterMap_cons]
    intro h
    exact absurd h (by simp)
  · norm_num [c1TwoDayRows, nextDayCalendarMean, groupAqis, meanOpt, meanList,
      List.replicate_succ, List.filterMap_cons]
    intro h
    exact absurd h (by simp)

/-- C5, confirmed.  On an input of `N > 24` rows with no missing pm2_5,
`pm2_5_lag_24h` is non-missing for exactly `N - 24` rows, and at every
index `i ≥ 24` it equals the pm2_5 value of the row 24 positions earlier
in the given ordering. -/
theorem lag24_defined_count_and_values (rows : List HourlyRow)
    (hall : ∀ r ∈ rows, r.pm2_5.isSome = true) (hlen : 24 < rows.length) :
    ((create_features rows).pm2_5_lag_24h).countP (fun x => x.isSome) =
        rows.length - 24 ∧
      ∀ i, 24 ≤ i → i < rows.length →
        ((create_features rows).pm2_5_lag_24h).getD i none =
          (rows.map (fun r => r.pm2_5)).getD (i - 24) none := by
  have hxs : ∀ x ∈ rows.map (fun r => r.pm2_5), x.isSome = true := by
    intro x hx
    obtain ⟨r, hr, rfl⟩ := List.mem_map.mp hx
    exact hall r hr
  constructor
  · show (shiftBack 24 (rows.map (fun r => r.pm2_5))).countP
      (fun x => x.isSome) = rows.length - 24
    set xs := rows.map (fun r => r.pm2_5) with hxsdef
    have hlenxs : xs.length = rows.length := by simp [hxsdef]
    unfold shiftBack
    rw [List.countP_append]
    have h1 : (List.replicate (min 24 xs.length) (none : Option ℚ)).countP
        (fun x => x.isSome) = 0 := by
      rw [List.countP_eq_zero]
      intro a ha
      rw [List.eq_of_mem_replicate ha]
      simp
    have h2 : (xs.take (xs.length - 24)).countP (fun x => x.isSome) =
        (xs.take (xs.length - 24)).length := by
      rw [List.countP_eq_length]
      intro a ha
      exact hxs a (List.take_subset _ _ ha)
    rw [h1, h2, List.length_take]
    omega
  · intro i h24 hi
    show (shiftBack 24 (rows.map (fun r => r.pm2_5))).getD i none =
      (rows.map (fun r => r.pm2_5)).getD (i - 24) none
    set xs := rows.map (fun r => r.pm2_5) with hxsdef
    have hlenxs : xs.length = rows.length := by simp [hxsdef]
    unfold shiftBack
    have hmin : min 24 xs.length = 24 := by omega
    rw [hmin, List.getD_eq_getElem?_getD,
      List.getElem?_append_right (by simp; omega)]
    rw [List.length_replicate, List.getElem?_take_of_lt (by omega),
      List.getD_eq_getElem?_getD]

/-- Witness for C5 on a concrete 25-row input. -/
theorem lag24_defined_count_and_values_witness :
    ((create_features (List.replicate 25 (⟨0, some 1, some 2⟩ : HourlyRow))).pm2_5_lag_24h).countP
        (fun x => x.isSome) = 1 ∧
      ((create_features (List.replicate 25 (⟨0, some 1, some 2⟩ : HourlyRow))).pm2_5_lag_24h).getD
          24 none =
        ((List.replicate 25 (⟨0, some 1, some 2⟩ : HourlyRow)).map
            (fun r => r.pm2_5)).getD 0 none := by
  have h := lag24_defined_count_and_values
    (List.replicate 25 (⟨0, some 1, some 2⟩ : HourlyRow))
    (by intro r hr; rw [List.eq_of_mem_replicate hr]; rfl)
    (by simp)
  exact ⟨by rw [h.1]; simp, h.2 24 le_rfl (by simp)⟩

/-- C6, counterexample.  The claim says `pm2_5_6h_avg` is missing for
exactly the first 6 rows.  In fact `rolling(6).mean()` needs only 6 rows
including the current one, so row index 5 — the sixth row, inside the
claimed missing prefix — is already defined: on pm2_5 values 1..8 it
equals `(1+2+3+4+5+6)/6 = 7/2`. -/
theorem rolling6_defined_at_sixth_row :
    ((create_features
        [⟨0, some 1, none⟩, ⟨0, some 2, none⟩, ⟨0, some 3, none⟩,
         ⟨0, some 4, none⟩, ⟨0, some 5, none⟩, ⟨0, some 6, none⟩,
         ⟨0, some 7, none⟩, ⟨0, some 8, none⟩]).pm2_5_6h_avg).getD 5 none =
      some (7/2) := by
  show (rollingMean 6 _).getD 5 none = some (7/2)
  unfold rollingMean
  rw [getD_map_range _ _ 5 (by norm_num)]
  norm_num [meanOpt, meanList, List.filterMap_cons]

/-- C6, amended.  On an input with no missing pm2_5, `pm2_5_6h_avg` is
missing for exactly the first 5 rows (defined from index 5 on),
`pm2_5_24h_avg` for exactly the first 23 rows (defined from index 23 on),
and `pm2_5_lag_1h` for exactly the first 1 row (defined from index 1 on). -/
theorem undefined_prefixes_5_23_1 (rows : List HourlyRow)
    (hall : ∀ r ∈ rows, r.pm2_5.isSome = true) (i : ℕ) (hi : i < rows.length) :
    ((((create_features rows).pm2_5_6h_avg).getD i none).isSome = true ↔
        5 ≤ i) ∧
      ((((create_features rows).pm2_5_24h_avg).getD i none).isSome = true ↔
        23 ≤ i) ∧
      ((((create_features rows).pm2_5_lag_1h).getD i none).isSome = true ↔
        1 ≤ i) := by
  have hxs : ∀ x ∈ rows.map (fun r => r.pm2_5), x.isSome = true := by
    intro x hx
    obtain ⟨r, hr, rfl⟩ := List.mem_map.mp hx
    exact hall r hr
  have hlenxs : (rows.map (fun r => r.pm2_5)).length = rows.length := by simp
  refine ⟨?_, ?_, ?_⟩
  · show ((rollingMean 6 (rows.map (fun r => r.pm2_5))).getD i none).isSome
      = true ↔ 5 ≤ i
    rw [rollingMean_getD_isSome 6 (by norm_num) _ hxs i (by omega)]
    omega
  · show ((rollingMean 24 (rows.map (fun r => r.pm2_5))).getD i none).isSome
      = true ↔ 23 ≤ i
    rw [rollingMean_getD_isSome 24 (by norm_num) _ hxs i (by omega)]
    omega
  · show ((shiftBack 1 (rows.map (fun r => r.pm2_5))).getD i none).isSome
      = true ↔ 1 ≤ i
    exact shiftBack_getD_isSome 1 _ hxs (by omega) i (by omega)

/-- Witness for C6 amended, at index 23 of a 24-row all-present input:
all three columns are defined there. -/
theorem undefined_prefixes_5_23_1_witness :
    ((((create_features (List.replicate 24 (⟨0, some 3, none⟩ : HourlyRow))).pm2_5_6h_avg).getD
        23 none).isSome = true) ∧
      ((((create_features (List.replicate 24 (⟨0, some 3, none⟩ : HourlyRow))).pm2_5_24h_avg).getD
        23 none).isSome = true) ∧
      ((((create_features (List.replicate 24 (⟨0, some 3, none⟩ : HourlyRow))).pm2_5_lag_1h).getD
        23 none).isSome = true) := by
  have h := undefined_prefixes_5_23_1
    (List.replicate 24 (⟨0, some 3, none⟩ : HourlyRow))
    (by intro r hr; rw [List.eq_of_mem_replicate hr]; rfl) 23 (by simp)
  exact ⟨h.1.mpr (by omega), h.2.1.mpr (by omega), h.2.2.mpr (by omega)⟩

/-- C10, confirmed.  For any row whose calendar-date group holds at most 24
rows — in particular every complete day at hourly cadence — the label
`next_day_avg_aqi` is missing: the 24-step shift inside the group leaves no
non-missing value to average. -/
theorem label_missing_when_group_at_most_24 (rows : List HourlyRow) (i : ℕ)
    (hi : i < rows.length)
    (hsmall : (groupAqis rows ((rows.get ⟨i, hi⟩).date)).length ≤ 24) :
    ((create_features rows).next_day_avg_aqi).getD i none = none := by
  have h1 : ((create_features rows).next_day_avg_aqi).getD i none =
      meanOpt (shiftFwd 24 (groupAqis rows ((rows.get ⟨i, hi⟩).date))) := by
    simp only [create_features]
    rw [List.getD_eq_getElem?_getD, List.getElem?_map,
      List.getElem?_eq_getElem hi]
    rfl
  rw [h1, meanOpt_shiftFwd, List.drop_eq_nil_of_le hsmall]
  rfl

/-- Witness for C10: a single full-day group (one row here) gets a missing
label. -/
theorem label_missing_when_group_at_most_24_witness :
    ((create_features [(⟨0, none, some 5⟩ : HourlyRow)]).next_day_avg_aqi).getD
      0 none = none :=
  label_missing_when_group_at_most_24 [⟨0, none, some 5⟩] 0 (by simp)
    (by simp [groupAqis])

/-! ## Feature engineering, daily path (src/features/engineer.py,
`AQIFeatureEngineer.create_daily_data`)

`create_daily_data` groups by calendar date (pandas `groupby` sorts the
distinct keys ascending), aggregates aqi by mean/max/min/std and the
pollutant columns by mean, rounds everything to 2 decimal places (numpy
rounds half to even), then lags the daily average by 1 and 7 rows and
leads it by 1 row for the label. -/

/-- numpy/pandas `round` to an integer: round half to even. -/
def roundHalfEvenQ (q : ℚ) : ℤ :=
  if q - ⌊q⌋ < 1/2 then ⌊q⌋
  else if 1/2 < q - ⌊q⌋ then ⌊q⌋ + 1
  else if 2 ∣ ⌊q⌋ then ⌊q⌋ else ⌊q⌋ + 1

/-- `.round(2)`: round to 2 decimal places, half to even. -/
def round2 (q : ℚ) : ℚ := (roundHalfEvenQ (q * 100) : ℚ) / 100

/-- One input row of `create_daily_data` (an hourly observation with its
derived `date` and `aqi`). -/
structure Obs where
  date : ℕ
  aqi : Option ℚ
  pm2_5 : Option ℚ
  pm10 : Option ℚ
  ozone : Option ℚ
deriving DecidableEq

/-- Insert a date into a sorted duplicate-free list of dates, keeping it
sorted and duplicate-free. -/
def insertUniq (a : ℕ) : List ℕ → List ℕ
  | [] => [a]
  | b :: t =>
    if a = b then b :: t
    else if a < b then a :: b :: t
    else b :: insertUniq a t

/-- The distinct dates of the input, sorted ascending — the index of the
pandas `groupby('date')` result (groupby sorts its keys by default). -/
def uniqueSortedDates (l : List ℕ) : List ℕ := l.foldr insertUniq []

/-- The non-missing values of column `f` within the group of date `d`, in
input order (what pandas mean/max/min/std aggregate over, since they skip
`NaN`). -/
def colOf (f : Obs → Option ℚ) (rows : List Obs) (d : ℕ) : List ℚ :=
  ((rows.filter (fun r => decide (r.date = d))).map f).filterMap id

/-- The non-missing aqi values of the group of date `d`. -/
def aqisOf (rows : List Obs) (d : ℕ) : List ℚ := colOf (fun r => r.aqi) rows d

/-- One output row of `create_daily_data` (the `daily_std_aqi` column needs
real numbers and is embedded separately as `dailyStdCol`). -/
structure DailyRow where
  date : ℕ
  daily_avg_aqi : Option ℚ
  daily_max_aqi : Option ℚ
  daily_min_aqi : Option ℚ
  pm2_5_mean : Option ℚ
  pm10_mean : Option ℚ
  ozone_mean : Option ℚ
  prev_day_aqi : Option ℚ
  prev_week_aqi : Option ℚ
  next_day_aqi : Option ℚ
deriving DecidableEq, Inhabited

/-- `AQIFeatureEngineer.create_daily_data` (engineer.py lines 39-70),
minus the std column: group by date (keys sorted ascending), aggregate by
`NaN`-skipping mean/max/min rounded to 2 decimals, then
`prev_day_aqi = daily_avg_aqi.shift(1)`,
`prev_week_aqi = daily_avg_aqi.shift(7)`,
`next_day_aqi = daily_avg_aqi.shift(-1)` in date order. -/
def createDailyData (rows : List Obs) : List DailyRow :=
  let dates := uniqueSortedDates (rows.map (fun r => r.date))
  let avgCol := dates.map (fun d => (meanList (aqisOf rows d)).map round2)
  let maxCol := dates.map (fun d => ((aqisOf rows d).max?).map round2)
  let minCol := dates.map (fun d => ((aqisOf rows d).min?).map round2)
  let pm25Col := dates.map (fun d =>
    (meanList (colOf (fun r => r.pm2_5) rows d)).map round2)
  let pm10Col := dates.map (fun d =>
    (meanList (colOf (fun r => r.pm10) rows d)).map round2)
  let ozoneCol := dates.map (fun d =>
    (meanList (colOf (fun r => r.ozone) rows d)).map round2)
  let prevDayCol := shiftBack 1 avgCol
  let prevWeekCol := shiftBack 7 avgCol
  let nextDayCol := shiftFwd 1 avgCol
  (List.range dates.length).map (fun i =>
    { date := dates.getD i 0
      daily_avg_aqi := avgCol.getD i none
      daily_max_aqi := maxCol.getD i none
      daily_min_aqi := minCol.getD i none
      pm2_5_mean := pm25Col.getD i none
      pm10_mean := pm10Col.getD i none
      ozone_mean := ozoneCol.getD i none
      prev_day_aqi := prevDayCol.getD i none
      prev_week_aqi := prevWeekCol.getD i none
      next_day_aqi := nextDayCol.getD i none })

/-- numpy round-half-to-even over the reals (needed once a square root has
been taken). -/
noncomputable def roundHalfEvenR (x : ℝ) : ℤ :=
  if x - ⌊x⌋ < 1/2 then ⌊x⌋
  else if 1/2 < x - ⌊x⌋ then ⌊x⌋ + 1
  else if 2 ∣ ⌊x⌋ then ⌊x⌋ + 0 else ⌊x⌋ + 1

/-- `.round(2)` over the reals. -/
noncomputable def round2R (x : ℝ) : ℝ := (roundHalfEvenR (x * 100) : ℝ) / 100

/-- The variance aggregated by pandas `agg('std')` before the square root:
`ddof = 1`, i.e. the sample variance with divisor `n - 1`, `NaN` when fewer
than 2 values are present.  Computed exactly in ℚ. -/
def sampleVarQ (vals : List ℚ) : Option ℚ :=
  if vals.length ≤ 1 then none
  else some (((vals.map
      (fun v => (v - vals.sum / vals.length) ^ 2)).sum) / (vals.length - 1))

/-- Modelled from the spec: the population variance (divisor `n`) that the
spec's words "population std" describe; used only to compare against the
code's `agg('std')`. -/
def popVarQ (vals : List ℚ) : Option ℚ :=
  if vals.length = 0 then none
  else some (((vals.map
      (fun v => (v - vals.sum / vals.length) ^ 2)).sum) / vals.length)

/-- The `daily_std_aqi` column of `create_daily_data`: per sorted date,
`round2` of the square root of the `ddof = 1` variance of that day's
non-missing aqi values. -/
noncomputable def dailyStdCol (rows : List Obs) : List (Option ℝ) :=
  (uniqueSortedDates (rows.map (fun r => r.date))).map
    (fun d => Option.map (fun q : ℚ => round2R (Real.sqrt (q : ℝ)))
      (sampleVarQ (aqisOf rows d)))

/-- Modelled from the spec: the same column computed with the population
variance, as the spec's "population std" would have it. -/
noncomputable def dailyStdColPop (rows : List Obs) : List (Option ℝ) :=
  (uniqueSortedDates (rows.map (fun r => r.date))).map
    (fun d => Option.map (fun q : ℚ => round2R (Real.sqrt (q : ℝ)))
      (popVarQ (aqisOf rows d)))

/-- Two full days of hourly observations: `g1` are day `d1`'s aqi values,
`g2` day `d2`'s (pollutant columns left missing — no claim touches them). -/
def twoDayRows (d1 d2 : ℕ) (g1 g2 : List ℚ) : List Obs :=
  g1.map (fun a => { date := d1, aqi := some a, pm2_5 := none, pm10 := none,
                     ozone := none })
    ++ g2.map (fun a => { date := d2, aqi := some a, pm2_5 := none,
                          pm10 := none, ozone := none })

/-! ### Helper lemmas for the daily path -/

lemma map_const_nat {β : Type} (l : List β) (d : ℕ) :
    l.map (fun _ => d) = List.replicate l.length d := by
  induction l with
  | nil => rfl
  | cons a t ih => simp [List.replicate_succ, ih]

lemma insertUniq_idem (a : ℕ) (l : List ℕ) :
    insertUniq a (insertUniq a l) = insertUniq a l := by
  induction l with
  | nil => simp [insertUniq]
  | cons b t ih =>
    by_cases hab : a = b
    · simp [insertUniq, hab]
    · by_cases hlt : a < b
      · simp [insertUniq, hab, hlt]
      · simp [insertUniq, hab, hlt, ih]

lemma usd_replicate_append (n : ℕ) (a : ℕ) (l : List ℕ) (hn : n ≠ 0) :
    uniqueSortedDates (List.replicate n a ++ l) =
      insertUniq a (uniqueSortedDates l) := by
  induction n with
  | zero => exact absurd rfl hn
  | succ m ih =>
    rw [List.replicate_succ, List.cons_append]
    show insertUniq a (uniqueSortedDates (List.replicate m a ++ l)) = _
    rcases Nat.eq_zero_or_pos m with h0 | hpos
    · rw [h0]
      rfl
    · rw [ih (by omega), insertUniq_idem]

lemma usd_two_blocks (d1 d2 : ℕ) (hd : d1 < d2) (n m : ℕ) (hn : n ≠ 0)
    (hm : m ≠ 0) :
    uniqueSortedDates (List.replicate n d1 ++ List.replicate m d2) =
      [d1, d2] := by
  have e2 : uniqueSortedDates (List.replicate m d2) = [d2] := by
    have h := usd_replicate_append m d2 [] hm
    rw [List.append_nil] at h
    rw [h]
    rfl
  rw [usd_replicate_append n d1 _ hn, e2]
  simp [insertUniq, Nat.ne_of_lt hd, hd]

lemma filter_date_map_eq (d : ℕ) (g : List ℚ) (mk : ℚ → Obs)
    (hmk : ∀ a, (mk a).date = d) :
    (g.map mk).filter (fun r => decide (r.date = d)) = g.map mk := by
  induction g with
  | nil => rfl
  | cons a t ih => simp [List.filter_cons, hmk, ih]

lemma filter_date_map_ne (d e : ℕ) (hne : e ≠ d) (g : List ℚ) (mk : ℚ → Obs)
    (hmk : ∀ a, (mk a).date = e) :
    (g.map mk).filter (fun r => decide (r.date = d)) = [] := by
  induction g with
  | nil => rfl
  | cons a t ih => simp [List.filter_cons, hmk, hne, ih]

lemma filterMap_id_map_some (g : List ℚ) : (g.map some).filterMap id = g := by
  induction g with
  | nil => rfl
  | cons a t ih => simp [ih]

lemma getD_map_range' {α : Type} (n : ℕ) (f : ℕ → α) (d : α) (i : ℕ)
    (hi : i < n) : (((List.range n).map f).getD i d) = f i := by
  rw [List.getD_eq_getElem?_getD, List.getElem?_map, List.getElem?_range hi]
  rfl

lemma getD_map_dates {α : Type} (l : List ℕ) (F : ℕ → α) (dflt : α) (i : ℕ)
    (hi : i < l.length) : ((l.map F).getD i dflt) = F (l.getD i 0) := by
  rw [List.getD_eq_getElem?_getD, List.getElem?_map,
    List.getElem?_eq_getElem hi]
  rw [List.getD_eq_getElem?_getD, List.getElem?_eq_getElem hi]
  rfl

lemma aqisOf_twoDay_left (d1 d2 : ℕ) (hd : d1 ≠ d2) (g1 g2 : List ℚ) :
    aqisOf (twoDayRows d1 d2 g1 g2) d1 = g1 := by
  unfold aqisOf colOf twoDayRows
  rw [List.filter_append,
    filter_date_map_eq d1 g1 _ (fun a => rfl),
    filter_date_map_ne d1 d2 (Ne.symm hd) g2 _ (fun a => rfl),
    List.append_nil]
  rw [show (g1.map (fun a =>
      ({ date := d1, aqi := some a, pm2_5 := none, pm10 := none,
         ozone := none } : Obs))).map (fun r => r.aqi) = g1.map some from by
    rw [List.map_map]; rfl]
  exact filterMap_id_map_some g1

lemma aqisOf_twoDay_right (d1 d2 : ℕ) (hd : d1 ≠ d2) (g1 g2 : List ℚ) :
    aqisOf (twoDayRows d1 d2 g1 g2) d2 = g2 := by
  unfold aqisOf colOf twoDayRows
  rw [List.filter_append,
    filter_date_map_ne d2 d1 hd g1 _ (fun a => rfl),
    filter_date_map_eq d2 g2 _ (fun a => rfl),
    List.nil_append]
  rw [show (g2.map (fun a =>
      ({ date := d2, aqi := some a, pm2_5 := none, pm10 := none,
         ozone := none } : Obs))).map (fun r => r.aqi) = g2.map some from by
    rw [List.map_map]; rfl]
  exact filterMap_id_map_some g2

/-! ### Claims C7 and C8 -/

/-- C7, confirmed.  On two full calendar days of hourly data (24 aqi
values per day, `d1 < d2`), `create_daily_data` produces one row per day;
`daily_avg_aqi` of each row is the unweighted mean of that day's 24 aqi
values rounded to 2 decimals; `prev_day_aqi` of the second row equals
`daily_avg_aqi` of the first; and `next_day_aqi` of the last row is
missing. -/
theorem daily_two_full_days_aggregation (d1 d2 : ℕ) (g1 g2 : List ℚ)
    (hd : d1 < d2) (h1 : g1.length = 24) (h2 : g2.length = 24) :
    (createDailyData (twoDayRows d1 d2 g1 g2)).length = 2 ∧
      ((createDailyData (twoDayRows d1 d2 g1 g2)).getD 0 default).daily_avg_aqi =
        some (round2 (g1.sum / 24)) ∧
      ((createDailyData (twoDayRows d1 d2 g1 g2)).getD 1 default).daily_avg_aqi =
        some (round2 (g2.sum / 24)) ∧
      ((createDailyData (twoDayRows d1 d2 g1 g2)).getD 1 default).prev_day_aqi =
        ((createDailyData (twoDayRows d1 d2 g1 g2)).getD 0 default).daily_avg_aqi ∧
      ((createDailyData (twoDayRows d1 d2 g1 g2)).getD 1 default).next_day_aqi =
        none := by
  have hdates : (twoDayRows d1 d2 g1 g2).map (fun r => r.date) =
      List.replicate 24 d1 ++ List.replicate 24 d2 := by
    unfold twoDayRows
    rw [List.map_append, List.map_map, List.map_map]
    rw [show ((fun r : Obs => r.date) ∘ fun a : ℚ =>
        ({ date := d1, aqi := some a, pm2_5 := none, pm10 := none,
           ozone := none } : Obs)) = fun _ => d1 from rfl]
    rw [show ((fun r : Obs => r.date) ∘ fun a : ℚ =>
        ({ date := d2, aqi := some a, pm2_5 := none, pm10 := none,
           ozone := none } : Obs)) = fun _ => d2 from rfl]
    rw [map_const_nat, map_const_nat, h1, h2]
  have husd : uniqueSortedDates ((twoDayRows d1 d2 g1 g2).map (fun r => r.date))
      = [d1, d2] := by
    rw [hdates]
    exact usd_two_blocks d1 d2 hd 24 24 (by norm_num) (by norm_num)
  have hg1 : aqisOf (twoDayRows d1 d2 g1 g2) d1 = g1 :=
    aqisOf_twoDay_left d1 d2 (Nat.ne_of_lt hd) g1 g2
  have hg2 : aqisOf (twoDayRows d1 d2 g1 g2) d2 = g2 :=
    aqisOf_twoDay_right d1 d2 (Nat.ne_of_lt hd) g1 g2
  have hm1 : meanList g1 = some (g1.sum / 24) := by
    unfold meanList
    rw [if_neg (by omega), h1]
    norm_num
  have hm2 : meanList g2 = some (g2.sum / 24) := by
    unfold meanList
    rw [if_neg (by omega), h2]
    norm_num
  unfold createDailyData
  rw [husd]
  simp only [List.map_cons, List.map_nil, hg1, hg2, hm1, hm2]
  refine ⟨by simp, ?_, ?_, ?_, ?_⟩
  · rw [getD_map_range' _ _ _ 0 (by simp)]
    simp
  · rw [getD_map_range' _ _ _ 1 (by simp)]
    simp
  · rw [getD_map_range' _ _ _ 1 (by simp), getD_map_range' _ _ _ 0 (by simp)]
    simp [shiftBack]
  · rw [getD_map_range' _ _ _ 1 (by simp)]
    simp [shiftFwd]

/-- Witness for C7: two concrete full days (day 0 all 10s, day 1 all
20s). -/
theorem daily_two_full_days_aggregation_witness :
    (createDailyData (twoDayRows 0 1 (List.replicate 24 (10:ℚ))
        (List.replicate 24 (20:ℚ)))).length = 2 ∧
      ((createDailyData (twoDayRows 0 1 (List.replicate 24 (10:ℚ))
          (List.replicate 24 (20:ℚ)))).getD 0 default).daily_avg_aqi =
        some (round2 ((List.replicate 24 (10:ℚ)).sum / 24)) ∧
      ((createDailyData (twoDayRows 0 1 (List.replicate 24 (10:ℚ))
          (List.replicate 24 (20:ℚ)))).getD 1 default).daily_avg_aqi =
        some (round2 ((List.replicate 24 (20:ℚ)).sum / 24)) ∧
      ((createDailyData (twoDayRows 0 1 (List.replicate 24 (10:ℚ))
          (List.replicate 24 (20:ℚ)))).getD 1 default).prev_day_aqi =
        ((createDailyData (twoDayRows 0 1 (List.replicate 24 (10:ℚ))
          (List.replicate 24 (20:ℚ)))).getD 0 default).daily_avg_aqi ∧
      ((createDailyData (twoDayRows 0 1 (List.replicate 24 (10:ℚ))
          (List.replicate 24 (20:ℚ)))).getD 1 default).next_day_aqi = none :=
  daily_two_full_days_aggregation 0 1 (List.replicate 24 (10:ℚ))
    (List.replicate 24 (20:ℚ)) (by norm_num) (by simp) (by simp)

/-- A single day with aqi values 0 and 2: sample std is `√2 ≈ 1.41`,
population std is `1`. -/
def c8Rows : List Obs :=
  [{ date := 0, aqi := some 0, pm2_5 := none, pm10 := none, ozone := none },
   { date := 0, aqi := some 2, pm2_5 := none, pm10 := none, ozone := none }]

lemma floor_hundred_sqrt_two : ⌊Real.sqrt 2 * 100⌋ = 141 := by
  have h1 : (1.41:ℝ) < Real.sqrt 2 := by
    rw [Real.lt_sqrt (by norm_num)]
    norm_num
  have h2 : Real.sqrt 2 < 1.42 := by
    rw [Real.sqrt_lt' (by norm_num)]
    norm_num
  rw [Int.floor_eq_iff]
  push_cast
  constructor
  · nlinarith
  · nlinarith

lemma round2R_sqrt_two : round2R (Real.sqrt 2) = 141/100 := by
  have h2 : Real.sqrt 2 < 1.415 := by
    rw [Real.sqrt_lt' (by norm_num)]
    norm_num
  unfold round2R roundHalfEvenR
  rw [floor_hundred_sqrt_two, if_pos (by push_cast; nlinarith)]
  norm_num

lemma round2R_one : round2R 1 = 1 := by
  unfold round2R roundHalfEvenR
  norm_num

/-- C8, counterexample.  The claim says `daily_std_aqi` is the population
standard deviation (divisor `n`).  pandas `agg('std')` uses `ddof = 1`
(divisor `n - 1`): on a day with aqi values 0 and 2 the code's column
holds `round2(√2) = 1.41`, while the population standard deviation is
exactly `1`. -/
theorem daily_std_differs_from_population_std :
    (dailyStdCol c8Rows).getD 0 none = some (141/100) ∧
      (dailyStdColPop c8Rows).getD 0 none = some 1 ∧
      ((141:ℝ)/100) ≠ 1 := by
  have husd : uniqueSortedDates (c8Rows.map (fun r => r.date)) = [0] := by
    rfl
  have haq : aqisOf c8Rows 0 = [0, 2] := by rfl
  have hvar : sampleVarQ [0, 2] = some 2 := by
    unfold sampleVarQ
    norm_num
  have hpvar : popVarQ [0, 2] = some 1 := by
    unfold popVarQ
    norm_num
  refine ⟨?_, ?_, by norm_num⟩
  · unfold dailyStdCol
    rw [husd]
    simp only [List.map_cons, List.map_nil, haq, hvar, Option.map_some]
    rw [List.getD_cons_zero]
    norm_num
    rw [round2R_sqrt_two]
  · unfold dailyStdColPop
    rw [husd]
    simp only [List.map_cons, List.map_nil, haq, hpvar, Option.map_some]
    rw [List.getD_cons_zero]
    norm_num
    rw [round2R_one]

/-- C8, amended.  For every calendar-date group (at sorted-date position
`i`, with group values `vals`), `daily_std_aqi` is the SAMPLE standard
deviation — divisor `n - 1`, pandas' `ddof = 1` — of that day's aqi
values, rounded to 2 decimal places; it is missing when the group has
fewer than 2 values. -/
theorem daily_std_is_sample_std (rows : List Obs) (i : ℕ) (d : ℕ)
    (vals : List ℚ)
    (hi : i < (uniqueSortedDates (rows.map (fun r => r.date))).length)
    (hd : (uniqueSortedDates (rows.map (fun r => r.date))).getD i 0 = d)
    (hvals : aqisOf rows d = vals) :
    (vals.length ≤ 1 → (dailyStdCol rows).getD i none = none) ∧
      (2 ≤ vals.length →
        (dailyStdCol rows).getD i none =
          some (round2R (Real.sqrt
            (((vals.map (fun v => (v - vals.sum / vals.length) ^ 2)).sum /
                (vals.length - 1) : ℚ) : ℝ)))) := by
  have hstep : (dailyStdCol rows).getD i none =
      Option.map (fun q : ℚ => round2R (Real.sqrt (q : ℝ)))
        (sampleVarQ vals) := by
    unfold dailyStdCol
    rw [getD_map_dates _ _ none i hi, hd, hvals]
  constructor
  · intro hsmall
    rw [hstep]
    unfold sampleVarQ
    rw [if_pos hsmall]
    rfl
  · intro hbig
    rw [hstep]
    unfold sampleVarQ
    rw [if_neg (by omega)]
    rfl

/-- Witness for C8 amended: a day with a single aqi value has a missing
`daily_std_aqi` (pandas ddof = 1 std of one value is `NaN`). -/
theorem daily_std_is_sample_std_witness :
    (dailyStdCol
      [({ date := 0, aqi := some 5, pm2_5 := none, pm10 := none,
          ozone := none } : Obs)]).getD 0 none = none :=
  (daily_std_is_sample_std
    [{ date := 0, aqi := some 5, pm2_5 := none, pm10 := none, ozone := none }]
    0 0 [5] (by decide) (by decide) (by rfl)).1 (by decide)

/-! ## Trainer (src/models/trainer.py, `SimpleAQIModel.train`)

`train` calls sklearn's `train_test_split(X, y, test_size=0.2,
random_state=42, shuffle=False)`: with `shuffle=False` the first
`n - ceil(0.2 n)` rows train and the last `ceil(0.2 n)` rows test, and
sklearn raises (the spec's `InsufficientDataError`) exactly when either
side of the split would be empty.  The fitted ensemble itself is opaque
external state; the embedding keeps the training slices.  In the trainer's
main flow `model.save()` runs only after `train` returns, so nothing is
persisted when `train` raises. -/

inductive TrainError where
  | insufficientData
deriving DecidableEq

/-- `ceil(0.2 * n)`, sklearn's test-row count for `test_size=0.2`. -/
def testSize (n : ℕ) : ℕ := (n + 4) / 5

/-- The remaining training rows. -/
def trainSize (n : ℕ) : ℕ := n - testSize n

/-- sklearn `train_test_split(..., test_size=0.2, shuffle=False)` on one
aligned column: error when the train or test side would be empty,
otherwise the chronological 80/20 split. -/
def train_test_split {α : Type} (xs : List α) :
    Except TrainError (List α × List α) :=
  if trainSize xs.length = 0 ∨ testSize xs.length = 0 then
    Except.error TrainError.insufficientData
  else Except.ok (xs.take (trainSize xs.length), xs.drop (trainSize xs.length))

/-- The data a fitted `SimpleAQIModel` was trained on (the regressor
itself is opaque sklearn state). -/
structure FittedModel where
  trainX : List (List ℚ)
  trainY : List ℚ
deriving DecidableEq

/-- `SimpleAQIModel.train` (trainer.py lines 17-27): split, then fit on
the training slices; the split is the only fallible step. -/
def SimpleAQIModel_train (X : List (List ℚ)) (y : List ℚ) :
    Except TrainError FittedModel :=
  match train_test_split X with
  | Except.error e => Except.error e
  | Except.ok (Xtr, _) => Except.ok ⟨Xtr, y.take (trainSize X.length)⟩

/-- The trainer's main flow: `model.train(X, y)` then `model.save()`.  The
second component is what ends up persisted — `none` when train raised. -/
def runTrainerMain (X : List (List ℚ)) (y : List ℚ) :
    Except TrainError FittedModel × Option FittedModel :=
  match SimpleAQIModel_train X y with
  | Except.error e => (Except.error e, none)
  | Except.ok m => (Except.ok m, some m)

/-- C9, confirmed.  With fewer than 2 usable rows (or a would-be-empty
test split, which can only happen at 0 rows since the test side is a
ceiling), `SimpleAQIModel.train` fails with the insufficient-data error
and no model is persisted. -/
theorem train_insufficient_data_no_model_saved (X : List (List ℚ))
    (y : List ℚ) (h : X.length < 2 ∨ testSize X.length = 0) :
    SimpleAQIModel_train X y = Except.error TrainError.insufficientData ∧
      (runTrainerMain X y).2 = none := by
  have hsplit : train_test_split X =
      Except.error TrainError.insufficientData := by
    unfold train_test_split
    rw [if_pos]
    rcases h with h | h
    · unfold trainSize testSize
      omega
    · right
      exact h
  constructor
  · unfold SimpleAQIModel_train
    rw [hsplit]
  · unfold runTrainerMain SimpleAQIModel_train
    rw [hsplit]

/-- Witness for C9: a single-row feature table. -/
theorem train_insufficient_data_no_model_saved_witness :
    SimpleAQIModel_train [[(1:ℚ)]] [1] =
        Except.error TrainError.insufficientData ∧
      (runTrainerMain [[(1:ℚ)]] [1]).2 = none :=
  train_insufficient_data_no_model_saved [[(1:ℚ)]] [1] (Or.inl (by norm_num))

end AQIPredictor
